import Mathlib

/-!
Verification development for the ViTA Design System MCP server
(`mcp-server/server.py`).

The Python module is shallowly embedded: each relevant method of
`ViTADesignSystemMCP` becomes an executable Lean definition operating on
explicit data.  Python dictionaries become association lists preserving
insertion order, JSON values become the inductive type `PyVal`, the
process-wide `self.design_data` state becomes an explicit `Option Catalog`
argument (with `none` standing for the initial empty dict `{}`), and the
`try`/`except` blocks of the merger become total functions returning the
state that the corresponding Python code holds when the exception is
caught.
-/

/-! ## Python string primitives

`str.strip`, `str.replace`, `str.startswith`, substring containment and
`str.title`, implemented over `List Char` so that every definition is
structurally recursive and kernel-reducible. -/

/-- Whitespace characters stripped by Python's `str.strip()` (ASCII part). -/
def isPySpace (c : Char) : Bool :=
  c = ' ' || c = '\t' || c = '\n' || c = '\x0d' || c = '\x0b' || c = '\x0c'

/-- Embedded `str.strip()` on a character list: drop whitespace from both ends. -/
def stripChars (l : List Char) : List Char :=
  ((l.dropWhile isPySpace).reverse.dropWhile isPySpace).reverse

/-- Python `value.strip()`. -/
def pyStrip (s : String) : String :=
  String.mk (stripChars s.data)

/-- Does `pat` occur at the beginning of `l`? -/
def isPrefixL : List Char → List Char → Bool
  | [], _ => true
  | _ :: _, [] => false
  | a :: as, b :: bs => a = b && isPrefixL as bs

/-- Does `pat` occur anywhere inside `l` (contiguously)? -/
def containsL (pat : List Char) : List Char → Bool
  | [] => isPrefixL pat []
  | c :: rest => isPrefixL pat (c :: rest) || containsL pat rest

/-- Python `s.startswith(pre)`. -/
def pyStartswith (s pre : String) : Bool :=
  isPrefixL pre.data s.data

/-- Python `pat in s` for strings (substring containment). -/
def pyContainsStr (s pat : String) : Bool :=
  containsL pat.data s.data

/-- Fuelled worker for `str.replace`: replace every non-overlapping
occurrence of `pat` by `rep`, scanning left to right.  The fuel is an upper
bound on the number of scanning steps; `replaceList` supplies enough. -/
def replF : Nat → List Char → List Char → List Char → List Char
  | 0, _, _, s => s
  | _ + 1, _, _, [] => []
  | fuel + 1, pat, rep, c :: rest =>
    if !pat.isEmpty && isPrefixL pat (c :: rest) then
      rep ++ replF fuel pat rep (List.drop pat.length (c :: rest))
    else
      c :: replF fuel pat rep rest

/-- Embedded `str.replace(pat, rep)` on character lists (all occurrences). -/
def replaceList (pat rep s : List Char) : List Char :=
  replF s.length pat rep s

/-- Python `s.replace(pat, rep)`. -/
def pyReplace (s pat rep : String) : String :=
  String.mk (replaceList pat.data rep.data s.data)

/-- Python `s.replace(a, b)` in the special case of a single-character
pattern and replacement (used for `'-'→'_'` and `'_'→' '`): a character map. -/
def replChar (a b : Char) (s : String) : String :=
  String.mk (s.data.map fun c => if c = a then b else c)

/-- Worker for Python `str.title()` (ASCII letters): the flag records
whether the previous character was alphabetic. -/
def titleAux : Bool → List Char → List Char
  | _, [] => []
  | prev, c :: rest =>
    if c.isAlpha then
      (if prev then c.toLower else c.toUpper) :: titleAux true rest
    else
      c :: titleAux false rest

/-- Python `s.title()` (ASCII): capitalize the first letter of each word. -/
def pyTitle (s : String) : String :=
  String.mk (titleAux false s.data)

/-! ## JSON / Python values

`PyVal` models the JSON-like values the server manipulates: the contents
of `FIGMA_DESIGN_TOKENS.json` (`json.load` output) and the nested static
descriptor dictionaries of the catalog.  Dictionaries are association
lists in insertion order.  Only the value shapes the program actually
uses appear (strings, integers, dictionaries, arrays). -/

inductive PyVal where
  | vstr : String → PyVal
  | vint : Int → PyVal
  | vdict : List (String × PyVal) → PyVal
  | vlist : List PyVal → PyVal

mutual

/-- Boolean equality on `PyVal` (structural, kernel-reducible). -/
def pyBeq : PyVal → PyVal → Bool
  | .vstr a, .vstr b => a == b
  | .vint a, .vint b => a == b
  | .vdict a, .vdict b => pyFieldsBeq a b
  | .vlist a, .vlist b => pyListBeq a b
  | _, _ => false

/-- Boolean equality on dictionary entry lists. -/
def pyFieldsBeq : List (String × PyVal) → List (String × PyVal) → Bool
  | [], [] => true
  | (k1, v1) :: r1, (k2, v2) :: r2 => k1 == k2 && pyBeq v1 v2 && pyFieldsBeq r1 r2
  | _, _ => false

/-- Boolean equality on array element lists. -/
def pyListBeq : List PyVal → List PyVal → Bool
  | [], [] => true
  | a :: r1, b :: r2 => pyBeq a b && pyListBeq r1 r2
  | _, _ => false

end

mutual

/-- Decidable equality on `PyVal`, written by hand (the deriving handler
does not support this nested inductive) so that it stays structurally
recursive and `decide` can evaluate it. -/
def pyDecEq : (a b : PyVal) → Decidable (a = b)
  | .vstr a, .vstr b =>
    match String.decEq a b with
    | isTrue h => isTrue (by rw [h])
    | isFalse h => isFalse (by intro hh; injection hh; contradiction)
  | .vstr _, .vint _ => isFalse (by intro h; exact PyVal.noConfusion h)
  | .vstr _, .vdict _ => isFalse (by intro h; exact PyVal.noConfusion h)
  | .vstr _, .vlist _ => isFalse (by intro h; exact PyVal.noConfusion h)
  | .vint _, .vstr _ => isFalse (by intro h; exact PyVal.noConfusion h)
  | .vint a, .vint b =>
    match Int.decEq a b with
    | isTrue h => isTrue (by rw [h])
    | isFalse h => isFalse (by intro hh; injection hh; contradiction)
  | .vint _, .vdict _ => isFalse (by intro h; exact PyVal.noConfusion h)
  | .vint _, .vlist _ => isFalse (by intro h; exact PyVal.noConfusion h)
  | .vdict _, .vstr _ => isFalse (by intro h; exact PyVal.noConfusion h)
  | .vdict _, .vint _ => isFalse (by intro h; exact PyVal.noConfusion h)
  | .vdict a, .vdict b =>
    match pyFieldsDecEq a b with
    | isTrue h => isTrue (by rw [h])
    | isFalse h => isFalse (by intro hh; injection hh; contradiction)
  | .vdict _, .vlist _ => isFalse (by intro h; exact PyVal.noConfusion h)
  | .vlist _, .vstr _ => isFalse (by intro h; exact PyVal.noConfusion h)
  | .vlist _, .vint _ => isFalse (by intro h; exact PyVal.noConfusion h)
  | .vlist _, .vdict _ => isFalse (by intro h; exact PyVal.noConfusion h)
  | .vlist a, .vlist b =>
    match pyListDecEq a b with
    | isTrue h => isTrue (by rw [h])
    | isFalse h => isFalse (by intro hh; injection hh; contradiction)

/-- Decidable equality on dictionary entry lists. -/
def pyFieldsDecEq : (a b : List (String × PyVal)) → Decidable (a = b)
  | [], [] => isTrue rfl
  | [], _ :: _ => isFalse (by intro h; exact List.noConfusion h)
  | _ :: _, [] => isFalse (by intro h; exact List.noConfusion h)
  | (k1, v1) :: r1, (k2, v2) :: r2 =>
    match String.decEq k1 k2, pyDecEq v1 v2, pyFieldsDecEq r1 r2 with
    | isTrue h1, isTrue h2, isTrue h3 => isTrue (by rw [h1, h2, h3])
    | isFalse h1, _, _ => isFalse (by
        intro h; injection h with h1' h2'; injection h1' with a' b'; exact h1 a')
    | _, isFalse h2, _ => isFalse (by
        intro h; injection h with h1' h2'; injection h1' with a' b'; exact h2 b')
    | _, _, isFalse h3 => isFalse (by
        intro h; injection h with h1' h2'; exact h3 h2')

/-- Decidable equality on array element lists. -/
def pyListDecEq : (a b : List PyVal) → Decidable (a = b)
  | [], [] => isTrue rfl
  | [], _ :: _ => isFalse (by intro h; exact List.noConfusion h)
  | _ :: _, [] => isFalse (by intro h; exact List.noConfusion h)
  | a :: r1, b :: r2 =>
    match pyDecEq a b, pyListDecEq r1 r2 with
    | isTrue h1, isTrue h2 => isTrue (by rw [h1, h2])
    | isFalse h1, _ => isFalse (by intro h; injection h with h1' h2'; exact h1 h1')
    | _, isFalse h2 => isFalse (by intro h; injection h with h1' h2'; exact h2 h2')

end

instance : DecidableEq PyVal := pyDecEq

/-- Look up a key in a Python dict (first matching entry). -/
def plookup (k : String) : List (String × PyVal) → Option PyVal
  | [] => none
  | (k', v) :: rest => if k' = k then some v else plookup k rest

/-- The entry list of a value, when it is a dict (`.items()`); else `[]`. -/
def pyItems : PyVal → List (String × PyVal)
  | .vdict d => d
  | _ => []

/-- Is the value a dict (`isinstance(x, dict)`)? -/
def pyIsDict : PyVal → Bool
  | .vdict _ => true
  | _ => false

/-- Python `"k" in container`: key membership for dicts, substring test
for strings, element equality for lists; a `TypeError` (modelled as
`.error ()`) for other operands. -/
def pyInOp (k : String) : PyVal → Except Unit Bool
  | .vdict d => .ok (plookup k d).isSome
  | .vstr s => .ok (pyContainsStr s k)
  | .vlist l => .ok (l.any fun v => pyBeq v (.vstr k))
  | .vint _ => .error ()

/-- Python `str(x)` as used in the token-lookup reply f-string;
only strings and integers ever reach this point in catalogs built by the
program. -/
def pyDisplay : PyVal → String
  | .vstr s => s
  | .vint n => toString n
  | .vdict _ => ""
  | .vlist _ => ""

/-! ## Token records and token dictionaries

A record written by `_parse_css_tokens` is a Python dict with keys
`value`, `css_var`, `description`; one written by `_merge_figma_data` has
keys `value`, `figma_path`, `description`.  Both shapes are captured by a
single structure with the absent key encoded as `none`. -/

structure TokenRecord where
  value : PyVal
  css_var : Option String
  figma_path : Option String
  description : PyVal
deriving DecidableEq

/-- A category dictionary `token name → record`, in insertion order. -/
abbrev TokenDict := List (String × TokenRecord)

/-- Look up a token name (first matching entry). -/
def dlookup (k : String) : TokenDict → Option TokenRecord
  | [] => none
  | (k', v) :: rest => if k' = k then some v else dlookup k rest

/-- Python dict assignment `d[k] = v`: overwrite in place when the key
exists (keeping its position), append otherwise. -/
def dictSet (d : TokenDict) (k : String) (v : TokenRecord) : TokenDict :=
  if (dlookup k d).isSome then
    d.map fun p => if p.1 = k then (p.1, v) else p
  else
    d ++ [(k, v)]

/-! ## `_parse_css_tokens`: regex scan

`re.findall(r'--vita-([^:]+):\s*([^;]+);', content)` is embedded as a
deterministic scanner: at each position, try to match the pattern
(its backtracking is fully determined: group 1 is the maximal nonempty
run of non-`:` characters after the literal `--vita-`, group 2 runs from
after the colon and the maximal whitespace run — backing off so that the
group is nonempty — up to the next `;`); on success emit the groups and
resume after the match, on failure advance one character. -/

/-- Try to match `--vita-([^:]+):\s*([^;]+);` at the head of `s`.
Returns `(group1, group2, rest-after-match)` on success. -/
def matchPropAt (s : List Char) : Option (List Char × List Char × List Char) :=
  if isPrefixL "--vita-".data s then
    let s1 := List.drop 7 s
    let g1 := s1.takeWhile (fun c => c ≠ ':')
    if g1.isEmpty || g1.length = s1.length then
      none
    else
      let s2 := List.drop (g1.length + 1) s1
      let w := (s2.takeWhile isPySpace).length
      let pre := s2.takeWhile (fun c => c ≠ ';')
      if pre.length = s2.length || pre.length = 0 then
        none
      else
        let start := Nat.min w (pre.length - 1)
        let g2 := (List.drop start s2).take (pre.length - start)
        some (g1, g2, List.drop (pre.length + 1) s2)
  else
    none

/-- Fuelled `re.findall` scan over the character list. -/
def findallF : Nat → List Char → List (String × String)
  | 0, _ => []
  | _ + 1, [] => []
  | fuel + 1, c :: rest =>
    match matchPropAt (c :: rest) with
    | some (g1, g2, after) => (String.mk g1, String.mk g2) :: findallF fuel after
    | none => findallF fuel rest

/-- Embedded `re.findall(r'--vita-([^:]+):\s*([^;]+);', content)`. -/
def findallProps (content : String) : List (String × String) :=
  findallF content.data.length content.data

/-! ## `_parse_css_tokens`: categorization

For each `(prop_name, value)` match the code strips the value, then
dispatches on the `prop_name` prefix, building the record exactly as the
three branches do (note: Python `str.replace` removes *all* occurrences
of `'color-'` / `'font-'` / `'spacing-'`, not only a leading one). -/

/-- The three token dictionaries accumulated by the scan loop. -/
structure TokenDicts where
  colors : TokenDict
  typography : TokenDict
  spacing : TokenDict
deriving DecidableEq

/-- The loop body of `_parse_css_tokens` for one regex match. -/
def catStep (td : TokenDicts) (m : String × String) : TokenDicts :=
  let prop_name := m.1
  let value := pyStrip m.2
  if pyStartswith prop_name "color-" then
    let category := replChar '-' '_' (pyReplace prop_name "color-" "")
    let rec0 : TokenRecord :=
      { value := .vstr value
        css_var := some ("--vita-color-" ++ pyReplace prop_name "color-" "")
        figma_path := none
        description := .vstr ("ViTA color token for " ++ replChar '_' ' ' category) }
    { td with colors := dictSet td.colors ("vita_color_" ++ category) rec0 }
  else if pyStartswith prop_name "font-" then
    let category := replChar '-' '_' (pyReplace prop_name "font-" "")
    let rec0 : TokenRecord :=
      { value := .vstr value
        css_var := some ("--vita-font-" ++ pyReplace prop_name "font-" "")
        figma_path := none
        description := .vstr ("ViTA typography token for " ++ replChar '_' ' ' category) }
    { td with typography := dictSet td.typography ("vita_font_" ++ category) rec0 }
  else if pyStartswith prop_name "spacing-" then
    let category := replChar '-' '_' (pyReplace prop_name "spacing-" "")
    let rec0 : TokenRecord :=
      { value := .vstr value
        css_var := some ("--vita-spacing-" ++ pyReplace prop_name "spacing-" "")
        figma_path := none
        description := .vstr ("ViTA spacing token " ++ category) }
    { td with spacing := dictSet td.spacing ("vita_spacing_" ++ category) rec0 }
  else
    td

/-- The `for prop_name, value in matches` loop. -/
def parseMatches (ms : List (String × String)) : TokenDicts :=
  ms.foldl catStep ⟨[], [], []⟩

/-! ## Static seed data

`_parse_css_tokens` unconditionally appends these hardcoded descriptors
after the scan (lines 343–432 of `server.py`). -/

/-- Embedded `tokens["components"]` seed. -/
def seedComponents : PyVal :=
  .vdict
    [("buttons", .vdict
        [("primary", .vdict
            [("class", .vstr "vita-button vita-button-primary"),
             ("description", .vstr "Primary action button"),
             ("usage", .vstr "Main CTAs, form submissions")]),
         ("secondary", .vdict
            [("class", .vstr "vita-button vita-button-secondary"),
             ("description", .vstr "Secondary action button"),
             ("usage", .vstr "Secondary actions, cancel buttons")]),
         ("edit", .vdict
            [("class", .vstr "vita-button vita-button-edit"),
             ("description", .vstr "Edit action button"),
             ("usage", .vstr "Edit operations, modify content")]),
         ("delete", .vdict
            [("class", .vstr "vita-button vita-button-delete"),
             ("description", .vstr "Delete action button"),
             ("usage", .vstr "Destructive actions, remove content")])]),
     ("inputs", .vdict
        [("default", .vdict
            [("class", .vstr "vita-input"),
             ("description", .vstr "Standard text input"),
             ("states", .vlist [.vstr "default", .vstr "focus", .vstr "error", .vstr "disabled"])]),
         ("label", .vdict
            [("class", .vstr "vita-input-label"),
             ("description", .vstr "Input label styling")])]),
     ("cards", .vdict
        [("default", .vdict
            [("class", .vstr "vita-card"),
             ("description", .vstr "Standard content card"),
             ("usage", .vstr "Content containers, information display")])])]

/-- Embedded `tokens["themes"]` seed. -/
def seedThemes : PyVal :=
  .vdict
    [("light", .vdict
        [("data_attribute", .vstr "data-theme=\"light\""),
         ("description", .vstr "Light theme configuration"),
         ("primary_surface", .vstr "var(--vita-color-surface-background)"),
         ("primary_text", .vstr "var(--vita-color-text-on-surface)")]),
     ("dark", .vdict
        [("data_attribute", .vstr "data-theme=\"dark\""),
         ("description", .vstr "Dark theme configuration"),
         ("primary_surface", .vstr "var(--vita-color-surface-background)"),
         ("primary_text", .vstr "var(--vita-color-text-on-surface)")])]

/-- Embedded `tokens["guidelines"]` seed. -/
def seedGuidelines : PyVal :=
  .vdict
    [("accessibility", .vdict
        [("contrast_ratios", .vdict
            [("normal_text", .vstr "4.5:1 minimum (WCAG AA)"),
             ("large_text", .vstr "3:1 minimum (WCAG AA)")]),
         ("focus_indicators", .vdict
            [("outline", .vstr "2px solid var(--vita-color-brand-primary)"),
             ("offset", .vstr "2px")]),
         ("semantic_markup", .vlist
            [.vstr "Use proper heading hierarchy (h1-h6)",
             .vstr "Include ARIA labels where appropriate",
             .vstr "Use semantic HTML elements"])])]

/-- Embedded `tokens["examples"]` seed. -/
def seedExamples : PyVal :=
  .vdict
    [("layouts", .vdict
        [("dashboard", .vdict
            [("description", .vstr "Analytics dashboard layout"),
             ("components", .vlist
                [.vstr "navigation", .vstr "cards", .vstr "charts", .vstr "tables"])]),
         ("form", .vdict
            [("description", .vstr "Form layout with validation"),
             ("components", .vlist
                [.vstr "inputs", .vstr "labels", .vstr "buttons", .vstr "validation"])]),
         ("landing", .vdict
            [("description", .vstr "Landing page layout"),
             ("components", .vlist
                [.vstr "hero", .vstr "features", .vstr "cta", .vstr "footer"])])])]

/-! ## The catalog (`self.design_data` when non-empty)

Seven categories in the insertion order of `_parse_css_tokens`; the three
token categories are typed dictionaries, the four descriptor categories
are `PyVal` dictionaries. -/

structure Catalog where
  colors : TokenDict
  typography : TokenDict
  spacing : TokenDict
  components : PyVal
  themes : PyVal
  guidelines : PyVal
  examples : PyVal
deriving DecidableEq

/-- Embedded `_parse_css_tokens` on readable file content: scan, categorize, then
attach the static seed data. -/
def parse_css_tokens (content : String) : Catalog :=
  let td := parseMatches (findallProps content)
  { colors := td.colors
    typography := td.typography
    spacing := td.spacing
    components := seedComponents
    themes := seedThemes
    guidelines := seedGuidelines
    examples := seedExamples }

/-- Embedded `_get_fallback_data` (lines 460–476). -/
def get_fallback_data : Catalog :=
  { colors := [("vita_color_brand_primary",
      { value := .vstr "#003965"
        css_var := some "--vita-color-brand-primary"
        figma_path := none
        description := .vstr "Primary brand color" })]
    typography := []
    spacing := []
    components := .vdict [("buttons", .vdict []), ("inputs", .vdict []), ("cards", .vdict [])]
    themes := .vdict [("light", .vdict []), ("dark", .vdict [])]
    guidelines := .vdict [("accessibility", .vdict [])]
    examples := .vdict [("layouts", .vdict [])] }

/-! ## `_merge_figma_data` (lines 439–458)

The whole body sits in a `try`/`except` that logs and returns.  The
functions below return the `colors` dictionary as it stands when the
corresponding Python code finishes or raises: a branch that models a
raised exception returns the current state unchanged, because the
`except` clause keeps whatever had been inserted so far. -/

/-- Innermost loop `for theme, theme_data in color_data.items()`: insert
a record for every dict leaf carrying a `value` key whose synthesized key
is not already present.  No statement in this loop can raise. -/
def mergeThemes (category color_name : String) :
    List (String × PyVal) → TokenDict → TokenDict
  | [], colors => colors
  | (theme, theme_data) :: rest, colors =>
    match theme_data with
    | .vdict td =>
      match plookup "value" td with
      | some v =>
        let token_key := "vita_color_" ++ category ++ "_" ++ color_name ++ "_" ++ theme
        let colors' :=
          if (dlookup token_key colors).isSome then colors
          else colors ++ [(token_key,
            { value := v
              css_var := none
              figma_path := some ("color." ++ category ++ "." ++ color_name ++ "." ++ theme)
              description := (plookup "description" td).getD (.vstr "") })]
        mergeThemes category color_name rest colors'
      | none => mergeThemes category color_name rest colors
    | _ => mergeThemes category color_name rest colors

/-- Middle loop `for color_name, color_data in colors.items()`: non-dict
`color_data` is skipped by the `isinstance` guard (no exception). -/
def mergeNames (category : String) :
    List (String × PyVal) → TokenDict → TokenDict
  | [], colors => colors
  | (color_name, color_data) :: rest, colors =>
    match color_data with
    | .vdict themeItems =>
        mergeNames category rest (mergeThemes category color_name themeItems colors)
    | _ => mergeNames category rest colors

/-- Outer loop `for category, colors in figma_colors.items()`: iterating
`.items()` on a non-dict value raises `AttributeError`, which aborts the
whole loop; the `except` keeps the records inserted so far. -/
def mergeCategories :
    List (String × PyVal) → TokenDict → TokenDict
  | [], colors => colors
  | (category, colorsVal) :: rest, colors =>
    match colorsVal with
    | .vdict nameItems => mergeCategories rest (mergeNames category nameItems colors)
    | _ => colors

/-- Embedded `_merge_figma_data` restricted to its effect on the `colors`
category (the only one it touches).  The guard
`"tokens" in figma_data and "color" in figma_data["tokens"]` is modelled
with Python `in` semantics; every raising path falls into the `except`
and leaves the dictionary as it stood. -/
def merge_figma_data (figma_data : PyVal) (colors : TokenDict) : TokenDict :=
  match pyInOp "tokens" figma_data with
  | .error _ => colors
  | .ok false => colors
  | .ok true =>
    match figma_data with
    | .vdict d =>
      let tokensVal := (plookup "tokens" d).getD (.vint 0)
      match pyInOp "color" tokensVal with
      | .error _ => colors
      | .ok false => colors
      | .ok true =>
        match tokensVal with
        | .vdict td =>
          match (plookup "color" td).getD (.vint 0) with
          | .vdict catItems => mergeCategories catItems colors
          | _ => colors
        | _ => colors
    | _ => colors

/-- Embedded `_merge_figma_data` on a full catalog: only `colors` changes. -/
def mergeCatalog (figma_data : PyVal) (c : Catalog) : Catalog :=
  { c with colors := merge_figma_data figma_data c.colors }

/-! ## `_load_design_data` (lines 269–291)

The file system is modelled explicitly.  `figma = some none` stands for a
`FIGMA_DESIGN_TOKENS.json` that exists but makes `json.load` raise;
`figma = some (some d)` parses to the document `d`.  The store
`self.design_data` is `none` while it is the empty dict `{}` (which is
falsy, so the `if self.design_data: return` guard does *not* fire on it).
When `design_data` is `{}`, `_merge_figma_data` raises `KeyError` at
`self.design_data["colors"]` (or never reaches it); either way the
`except` inside `_merge_figma_data` leaves the store `{}`. -/

structure FS where
  css : Option String
  figma : Option (Option PyVal)

/-- Result of one `_load_design_data` call: the new store plus how many
times each source file was opened and read. -/
structure LoadResult where
  state : Option Catalog
  cssReads : Nat
  figmaReads : Nat

/-- One call of `_load_design_data` against file system `fs` from store
state `st`. -/
def load_design_data (fs : FS) (st : Option Catalog) : LoadResult :=
  if st.isSome then
    { state := st, cssReads := 0, figmaReads := 0 }
  else
    let afterCss : Option Catalog × Nat :=
      match fs.css with
      | some content => (some (parse_css_tokens content), 1)
      | none => (none, 0)
    match fs.figma with
    | none =>
      { state := afterCss.1, cssReads := afterCss.2, figmaReads := 0 }
    | some none =>
      -- json.load raises; the outer except substitutes the fallback data
      { state := some get_fallback_data, cssReads := afterCss.2, figmaReads := 1 }
    | some (some d) =>
      match afterCss.1 with
      | some c =>
        { state := some (mergeCatalog d c), cssReads := afterCss.2, figmaReads := 1 }
      | none =>
        -- design_data is {}: the merge's internal except leaves it {}
        { state := none, cssReads := afterCss.2, figmaReads := 1 }

/-! ## `handle_read_resource` (lines 108–138)

Dispatch on the URI string.  The serialized payload is modelled as the
`PyVal` that `json.dumps` receives; an unknown URI raises `ValueError`,
modelled as `.error`.  Slices read `self.design_data` with `.get`
defaults, so an empty store yields empty-but-shaped slices. -/

/-- Convert a token record back to the Python dict `json.dumps` sees. -/
def recordToPy (r : TokenRecord) : PyVal :=
  .vdict ([("value", r.value)]
    ++ (match r.css_var with | some s => [("css_var", PyVal.vstr s)] | none => [])
    ++ (match r.figma_path with | some s => [("figma_path", PyVal.vstr s)] | none => [])
    ++ [("description", r.description)])

/-- Convert a token dictionary to the Python dict `json.dumps` sees. -/
def tokenDictToPy (d : TokenDict) : PyVal :=
  .vdict (d.map fun p => (p.1, recordToPy p.2))

/-- Embedded `self.design_data.get(cat, {})` for the three token categories. -/
def sliceTokens (sel : Catalog → TokenDict) : Option Catalog → PyVal
  | none => .vdict []
  | some c => tokenDictToPy (sel c)

/-- Embedded `self.design_data.get(cat, {}).get(key, {})` for the nested
descriptor categories. -/
def sliceNested (sel : Catalog → PyVal) (key : String) : Option Catalog → PyVal
  | none => .vdict []
  | some c => (plookup key (pyItems (sel c))).getD (.vdict [])

/-- The fixed set of 10 resource identifiers the handler accepts. -/
def resourceUris : List String :=
  ["vita://tokens/colors", "vita://tokens/typography", "vita://tokens/spacing",
   "vita://components/buttons", "vita://components/inputs", "vita://components/cards",
   "vita://themes/light", "vita://themes/dark",
   "vita://guidelines/accessibility", "vita://examples/layouts"]

/-- Embedded `handle_read_resource` after `_load_design_data` has run: `st` is the
store it observes. -/
def handle_read_resource (st : Option Catalog) (uri : String) : Except String PyVal :=
  if uri = "vita://tokens/colors" then .ok (sliceTokens Catalog.colors st)
  else if uri = "vita://tokens/typography" then .ok (sliceTokens Catalog.typography st)
  else if uri = "vita://tokens/spacing" then .ok (sliceTokens Catalog.spacing st)
  else if uri = "vita://components/buttons" then .ok (sliceNested Catalog.components "buttons" st)
  else if uri = "vita://components/inputs" then .ok (sliceNested Catalog.components "inputs" st)
  else if uri = "vita://components/cards" then .ok (sliceNested Catalog.components "cards" st)
  else if uri = "vita://themes/light" then .ok (sliceNested Catalog.themes "light" st)
  else if uri = "vita://themes/dark" then .ok (sliceNested Catalog.themes "dark" st)
  else if uri = "vita://guidelines/accessibility" then
    .ok (sliceNested Catalog.guidelines "accessibility" st)
  else if uri = "vita://examples/layouts" then .ok (sliceNested Catalog.examples "layouts" st)
  else .error ("Unknown resource URI: " ++ uri)

/-- Did the handler return a payload rather than raise `ValueError`? -/
def isOkE (e : Except String PyVal) : Bool :=
  match e with
  | .ok _ => true
  | .error _ => false

/-! ## `_generate_component` and the HTML generators (lines 478–569)

`attributes` is the argument-schema string-to-string mapping; the
attribute-pair rendering (space-joined `key="value"` items) and every
template is reproduced
byte for byte. -/

/-- Look up a key in a string-valued attribute mapping. -/
def alookupStr (k : String) : List (String × String) → Option String
  | [] => none
  | (k', v) :: rest => if k' = k then some v else alookupStr k rest

/-- Python `" ".join(items)`. -/
def joinSpace : List String → String
  | [] => ""
  | [a] => a
  | a :: rest => a ++ " " ++ joinSpace rest

/-- Embedded attribute rendering: the space-join of the formatted
`key="value"` pairs of the attribute mapping. -/
def attrsJoin (attributes : List (String × String)) : String :=
  joinSpace (attributes.map fun p => p.1 ++ "=\"" ++ p.2 ++ "\"")

/-- Embedded `_generate_button_html`. -/
def generate_button_html (variant content : String)
    (attributes : List (String × String)) (theme : String) : String :=
  let content := if content = "" then "Button" else content
  let class_name :=
    if variant ≠ "default" then "vita-button vita-button-" ++ variant else "vita-button"
  let attrs_str := attrsJoin attributes
  let theme_attr := if theme ≠ "auto" then " data-theme=\"" ++ theme ++ "\"" else ""
  "<button class=\"" ++ class_name ++ "\"" ++ theme_attr ++ " " ++ attrs_str ++ ">"
    ++ content ++ "</button>"

/-- Embedded `_generate_input_html`. -/
def generate_input_html (variant content : String)
    (attributes : List (String × String)) (theme : String) : String :=
  let label_text := if content = "" then "Label" else content
  let placeholder := (alookupStr "placeholder" attributes).getD "Enter value"
  let input_type := (alookupStr "type" attributes).getD "text"
  let theme_attr := if theme ≠ "auto" then " data-theme=\"" ++ theme ++ "\"" else ""
  let error_class := if variant = "error" then " error" else ""
  "<div class=\"demo-input-group\"" ++ theme_attr ++ ">\n    <label class=\"vita-input-label\">"
    ++ label_text ++ "</label>\n    <input type=\"" ++ input_type ++ "\" class=\"vita-input"
    ++ error_class ++ "\" placeholder=\"" ++ placeholder ++ "\">\n</div>"

/-- Embedded `_generate_card_html`. -/
def generate_card_html (variant content : String)
    (attributes : List (String × String)) (theme : String) : String :=
  let title := (alookupStr "title" attributes).getD "Card Title"
  let content := if content = "" then "Card content goes here..." else content
  let theme_attr := if theme ≠ "auto" then " data-theme=\"" ++ theme ++ "\"" else ""
  "<div class=\"vita-card\"" ++ theme_attr ++ ">\n    <h3 class=\"vita-text-headline-small\">"
    ++ title ++ "</h3>\n    <p class=\"vita-text-body-medium\">" ++ content ++ "</p>\n</div>"

/-- Embedded `_generate_badge_html`. -/
def generate_badge_html (variant content : String)
    (attributes : List (String × String)) (theme : String) : String :=
  let content := if content = "" then "Badge" else content
  let class_name :=
    if variant ≠ "default" then "vita-status-badge vita-status-badge-" ++ variant
    else "vita-status-badge"
  let theme_attr := if theme ≠ "auto" then " data-theme=\"" ++ theme ++ "\"" else ""
  "<span class=\"" ++ class_name ++ "\"" ++ theme_attr ++ ">" ++ content ++ "</span>"

/-- Embedded `_generate_layout_html`.  `attributes.get("columns", 2)` defaults to
the integer `2`; since it is only interpolated into the template, the
string-valued mapping models it with default text `"2"`. -/
def generate_layout_html (variant content : String)
    (attributes : List (String × String)) (theme : String) : String :=
  let columns := (alookupStr "columns" attributes).getD "2"
  let theme_attr := if theme ≠ "auto" then " data-theme=\"" ++ theme ++ "\"" else ""
  "<div class=\"vita-container\"" ++ theme_attr
    ++ ">\n    <div class=\"grid grid-" ++ columns
    ++ "\">\n        <div class=\"vita-card\">\n            <h3>Section 1</h3>\n            <p>Content here...</p>\n        </div>\n        <div class=\"vita-card\">\n            <h3>Section 2</h3>\n            <p>Content here...</p>\n        </div>\n    </div>\n</div>"

/-- The `TextContent` wrapper of a successful `_generate_component` call. -/
def wrapComponent (component_type html : String) : String :=
  "Generated " ++ component_type ++ " component:\n\n```html\n" ++ html ++ "\n```"

/-- Embedded `_generate_component`: the returned `TextContent` text.  Defaults
(`variant="default"`, `theme="auto"`, `content=""`, empty `attributes`)
are applied by the caller via `args.get`. -/
def generate_component (component_type variant theme content : String)
    (attributes : List (String × String)) : String :=
  if component_type = "button" then
    wrapComponent component_type (generate_button_html variant content attributes theme)
  else if component_type = "input" then
    wrapComponent component_type (generate_input_html variant content attributes theme)
  else if component_type = "card" then
    wrapComponent component_type (generate_card_html variant content attributes theme)
  else if component_type = "badge" then
    wrapComponent component_type (generate_badge_html variant content attributes theme)
  else if component_type = "layout" then
    wrapComponent component_type (generate_layout_html variant content attributes theme)
  else
    "Error: Unknown component type '" ++ component_type ++ "'"

/-! ## `_create_layout` / `_generate_complete_layout` (lines 571–789) -/

/-- Embedded `_generate_dashboard_layout`: a fixed page body; the `components`
argument is accepted and ignored. -/
def generate_dashboard_layout (components : List String) : String :=
  "    <div class=\"vita-container\">\n        <header class=\"vita-card\" style=\"margin-bottom: var(--vita-spacing-6);\">\n            <h1 class=\"vita-text-display-medium\">Dashboard</h1>\n            <p class=\"vita-text-body-large\">Welcome to your ViTA dashboard</p>\n        </header>\n        \n        <div class=\"grid grid-4\">\n            <div class=\"vita-card\" style=\"text-align: center;\">\n                <h3 class=\"vita-text-headline-small\">Active</h3>\n                <div class=\"vita-text-display-small\" style=\"color: var(--vita-color-semantic-success);\">24</div>\n                <span class=\"vita-status-badge vita-status-badge-success\">Running</span>\n            </div>\n            <div class=\"vita-card\" style=\"text-align: center;\">\n                <h3 class=\"vita-text-headline-small\">Pending</h3>\n                <div class=\"vita-text-display-small\" style=\"color: var(--vita-color-semantic-warning);\">8</div>\n                <span class=\"vita-status-badge vita-status-badge-warning\">Review</span>\n            </div>\n            <div class=\"vita-card\" style=\"text-align: center;\">\n                <h3 class=\"vita-text-headline-small\">Completed</h3>\n                <div class=\"vita-text-display-small\" style=\"color: var(--vita-color-brand-primary);\">156</div>\n                <span class=\"vita-status-badge vita-status-badge-success\">Done</span>\n            </div>\n            <div class=\"vita-card\" style=\"text-align: center;\">\n                <h3 class=\"vita-text-headline-small\">Errors</h3>\n                <div class=\"vita-text-display-small\" style=\"color: var(--vita-color-semantic-error);\">2</div>\n                <span class=\"vita-status-badge vita-status-badge-error\">Attention</span>\n            </div>\n        </div>\n    </div>"

/-- Embedded `_generate_form_layout`: a fixed page body; the `components`
argument is accepted and ignored. -/
def generate_form_layout (components : List String) : String :=
  "    <div class=\"vita-container-content\">\n        <div class=\"vita-card\" style=\"max-width: 500px; margin: 0 auto;\">\n            <h2 class=\"vita-text-headline-large\">Contact Form</h2>\n            <form style=\"margin-top: var(--vita-spacing-6);\">\n                <div class=\"demo-input-group\">\n                    <label class=\"vita-input-label\">Full Name *</label>\n                    <input type=\"text\" class=\"vita-input\" placeholder=\"Enter your full name\" required>\n                </div>\n                \n                <div class=\"demo-input-group\">\n                    <label class=\"vita-input-label\">Email Address *</label>\n                    <input type=\"email\" class=\"vita-input\" placeholder=\"Enter your email\" required>\n                </div>\n                \n                <div class=\"demo-input-group\">\n                    <label class=\"vita-input-label\">Message</label>\n                    <textarea class=\"vita-input\" rows=\"4\" placeholder=\"Enter your message\"></textarea>\n                </div>\n                \n                <div style=\"display: flex; gap: var(--vita-spacing-3); margin-top: var(--vita-spacing-6);\">\n                    <button type=\"submit\" class=\"vita-button vita-button-primary\">Send Message</button>\n                    <button type=\"reset\" class=\"vita-button vita-button-secondary\">Clear</button>\n                </div>\n            </form>\n        </div>\n    </div>"

/-- Embedded `_generate_landing_layout`: a fixed page body; the `components`
argument is accepted and ignored. -/
def generate_landing_layout (components : List String) : String :=
  "    <div class=\"vita-container\">\n        <header style=\"text-align: center; padding: var(--vita-spacing-8) 0;\">\n            <h1 class=\"vita-text-display-large\">Welcome to ViTA</h1>\n            <p class=\"vita-text-headline-medium\" style=\"margin-top: var(--vita-spacing-4);\">\n                Powerful design system for modern applications\n            </p>\n            <div style=\"margin-top: var(--vita-spacing-6);\">\n                <button class=\"vita-button vita-button-primary vita-button-action\">Get Started</button>\n                <button class=\"vita-button vita-button-secondary vita-button-action\" style=\"margin-left: var(--vita-spacing-3);\">Learn More</button>\n            </div>\n        </header>\n        \n        <div class=\"grid grid-3\" style=\"margin-top: var(--vita-spacing-8);\">\n            <div class=\"vita-card\" style=\"text-align: center;\">\n                <h3 class=\"vita-text-headline-small\">Fast Development</h3>\n                <p class=\"vita-text-body-medium\">Build interfaces quickly with pre-designed components</p>\n            </div>\n            <div class=\"vita-card\" style=\"text-align: center;\">\n                <h3 class=\"vita-text-headline-small\">Consistent Design</h3>\n                <p class=\"vita-text-body-medium\">Maintain visual consistency across all your applications</p>\n            </div>\n            <div class=\"vita-card\" style=\"text-align: center;\">\n                <h3 class=\"vita-text-headline-small\">Accessible</h3>\n                <p class=\"vita-text-body-medium\">WCAG 2.1 AA compliant components out of the box</p>\n            </div>\n        </div>\n    </div>"

/-- Embedded `_generate_profile_layout`: a fixed page body; the `components`
argument is accepted and ignored. -/
def generate_profile_layout (components : List String) : String :=
  "    <div class=\"vita-container\">\n        <div class=\"grid grid-3\">\n            <div class=\"vita-card\">\n                <div style=\"text-align: center;\">\n                    <div style=\"width: 80px; height: 80px; background: var(--vita-color-brand-primary); border-radius: 50%; margin: 0 auto var(--vita-spacing-4);\"></div>\n                    <h3 class=\"vita-text-headline-small\">John Doe</h3>\n                    <p class=\"vita-text-body-medium\">Senior Developer</p>\n                    <button class=\"vita-button vita-button-edit\" style=\"margin-top: var(--vita-spacing-4);\">Edit Profile</button>\n                </div>\n            </div>\n            \n            <div style=\"grid-column: span 2;\">\n                <div class=\"vita-card\">\n                    <h3 class=\"vita-text-headline-small\">Profile Information</h3>\n                    <div style=\"margin-top: var(--vita-spacing-4);\">\n                        <div class=\"demo-input-group\">\n                            <label class=\"vita-input-label\">Email</label>\n                            <input type=\"email\" class=\"vita-input\" value=\"john.doe@example.com\">\n                        </div>\n                        <div class=\"demo-input-group\">\n                            <label class=\"vita-input-label\">Phone</label>\n                            <input type=\"tel\" class=\"vita-input\" value=\"+1 (555) 123-4567\">\n                        </div>\n                        <div class=\"demo-input-group\">\n                            <label class=\"vita-input-label\">Bio</label>\n                            <textarea class=\"vita-input\" rows=\"3\">Passionate developer with 5+ years of experience...</textarea>\n                        </div>\n                    </div>\n                </div>\n            </div>\n        </div>\n    </div>"

/-- Embedded `_generate_settings_layout`: a fixed page body; the `components`
argument is accepted and ignored. -/
def generate_settings_layout (components : List String) : String :=
  "    <div class=\"vita-container\">\n        <h1 class=\"vita-text-display-medium\">Settings</h1>\n        \n        <div style=\"margin-top: var(--vita-spacing-6);\">\n            <div class=\"vita-card\">\n                <h3 class=\"vita-text-headline-small\">Appearance</h3>\n                <div style=\"margin-top: var(--vita-spacing-4);\">\n                    <div class=\"demo-input-group\">\n                        <label class=\"vita-input-label\">Theme</label>\n                        <select class=\"vita-input\">\n                            <option>Light</option>\n                            <option>Dark</option>\n                            <option>Auto</option>\n                        </select>\n                    </div>\n                    <div style=\"display: flex; align-items: center; margin-top: var(--vita-spacing-3);\">\n                        <input type=\"checkbox\" id=\"animations\" style=\"margin-right: var(--vita-spacing-2);\">\n                        <label for=\"animations\" class=\"vita-text-body-medium\">Enable animations</label>\n                    </div>\n                </div>\n            </div>\n            \n            <div class=\"vita-card\" style=\"margin-top: var(--vita-spacing-4);\">\n                <h3 class=\"vita-text-headline-small\">Notifications</h3>\n                <div style=\"margin-top: var(--vita-spacing-4);\">\n                    <div style=\"display: flex; align-items: center; margin-bottom: var(--vita-spacing-3);\">\n                        <input type=\"checkbox\" id=\"email-notif\" checked style=\"margin-right: var(--vita-spacing-2);\">\n                        <label for=\"email-notif\" class=\"vita-text-body-medium\">Email notifications</label>\n                    </div>\n                    <div style=\"display: flex; align-items: center; margin-bottom: var(--vita-spacing-3);\">\n                        <input type=\"checkbox\" id=\"push-notif\" style=\"margin-right: var(--vita-spacing-2);\">\n                        <label for=\"push-notif\" class=\"vita-text-body-medium\">Push notifications</label>\n                    </div>\n                </div>\n            </div>\n            \n            <div style=\"margin-top: var(--vita-spacing-6);\">\n                <button class=\"vita-button vita-button-primary\">Save Changes</button>\n                <button class=\"vita-button vita-button-secondary\" style=\"margin-left: var(--vita-spacing-3);\">Cancel</button>\n            </div>\n        </div>\n    </div>"

/-- Embedded `head_section` piece before the theme attribute. -/
def headPart1 : String := "<!DOCTYPE html>\n<html lang=\"en\" "

/-- Embedded `head_section` piece between the theme attribute and the title. -/
def headPart2 : String := ">\n<head>\n    <meta charset=\"UTF-8\">\n    <meta name=\"viewport\" content=\"width=device-width, initial-scale=1.0\">\n    <title>ViTA Design System - "

/-- Embedded `head_section` piece after the title. -/
def headPart3 : String := "</title>\n    <link rel=\"stylesheet\" href=\"./DESIGN_TOKENS.css\">\n    <link href=\"https://fonts.googleapis.com/css2?family=Heebo:wght@400;500;600;700&family=Poppins:wght@400;500;600;700;800;900&display=swap\" rel=\"stylesheet\">\n    <link href=\"https://fonts.googleapis.com/icon?family=Material+Icons\" rel=\"stylesheet\">\n</head>\n<body>"

/-- Embedded `_generate_complete_layout`: shared page shell around one of five
fixed bodies; an unknown `layout_type` degrades to a placeholder
fragment.  `components` and `responsive` are accepted throughout but
never consulted. -/
def generate_complete_layout (layout_type : String) (components : List String)
    (theme : String) (responsive : Bool) : String :=
  let theme_attr :=
    if theme ≠ "auto" then "data-theme=\"" ++ theme ++ "\"" else "data-theme=\"light\""
  let head_section := headPart1 ++ theme_attr ++ headPart2 ++ pyTitle layout_type ++ headPart3
  let body_content :=
    if layout_type = "dashboard" then generate_dashboard_layout components
    else if layout_type = "form" then generate_form_layout components
    else if layout_type = "landing" then generate_landing_layout components
    else if layout_type = "profile" then generate_profile_layout components
    else if layout_type = "settings" then generate_settings_layout components
    else "<div class=\"vita-container\"><h1>Unknown layout type</h1></div>"
  let footer_section := "</body>\n</html>"
  head_section ++ "\n" ++ body_content ++ "\n" ++ footer_section

/-- Embedded `_create_layout`: the returned `TextContent` text. -/
def create_layout (layout_type : String) (components : List String)
    (theme : String) (responsive : Bool) : String :=
  "Generated " ++ layout_type ++ " layout:\n\n```html\n"
    ++ generate_complete_layout layout_type components theme responsive ++ "\n```"

/-! ## `_get_token_value` (lines 833–851)

The loop runs over `self.design_data.values()` in insertion order
(colors, typography, spacing, components, themes, guidelines, examples)
and returns the first record whose `css_var` equals `--<token_name>`;
the `theme` argument is read but never used. -/

/-- Scan a token dictionary for the first record with matching `css_var`. -/
def findTok (token_name : String) : TokenDict → Option TokenRecord
  | [] => none
  | (_, r) :: rest =>
    if r.css_var = some ("--" ++ token_name) then some r else findTok token_name rest

/-- Scan a descriptor dictionary: only dict values with a `css_var` key
equal to `--<token_name>` match. -/
def findPyTok (token_name : String) : List (String × PyVal) → Option (List (String × PyVal))
  | [] => none
  | (_, v) :: rest =>
    match v with
    | .vdict td =>
      match plookup "css_var" td with
      | some (.vstr s) =>
        if s = "--" ++ token_name then some td else findPyTok token_name rest
      | _ => findPyTok token_name rest
    | _ => findPyTok token_name rest

/-- The reply for a record found in a token category. -/
def foundFromRec (token_name : String) (r : TokenRecord) : String :=
  "Token: " ++ token_name ++ "\nValue: " ++ pyDisplay r.value
    ++ "\nDescription: " ++ pyDisplay r.description

/-- The reply for a matching dict found in a descriptor category. -/
def foundFromPy (token_name : String) (td : List (String × PyVal)) : String :=
  "Token: " ++ token_name ++ "\nValue: " ++ pyDisplay ((plookup "value" td).getD (.vstr "Not found"))
    ++ "\nDescription: " ++ pyDisplay ((plookup "description" td).getD (.vstr "No description"))

/-- The not-found reply. -/
def notFoundMsg (token_name : String) : String :=
  "Token '" ++ token_name ++ "' not found in ViTA design system"

/-- Embedded `_get_token_value` on a non-empty store (the `theme` argument is
accepted and unused). -/
def get_token_value (c : Catalog) (token_name : String) : String :=
  match findTok token_name c.colors with
  | some r => foundFromRec token_name r
  | none =>
  match findTok token_name c.typography with
  | some r => foundFromRec token_name r
  | none =>
  match findTok token_name c.spacing with
  | some r => foundFromRec token_name r
  | none =>
  match findPyTok token_name (pyItems c.components) with
  | some td => foundFromPy token_name td
  | none =>
  match findPyTok token_name (pyItems c.themes) with
  | some td => foundFromPy token_name td
  | none =>
  match findPyTok token_name (pyItems c.guidelines) with
  | some td => foundFromPy token_name td
  | none =>
  match findPyTok token_name (pyItems c.examples) with
  | some td => foundFromPy token_name td
  | none => notFoundMsg token_name

/-! ## Derived notions used in the statements below -/

/-- The remainder of `s` after a prefix of the length of `pre`. -/
def dropPrefixStr (pre s : String) : String :=
  String.mk (s.data.drop pre.data.length)

/-- The colors-branch token name built by `_parse_css_tokens` for a
matched property name. -/
def colorKeyOf (prop_name : String) : String :=
  "vita_color_" ++ replChar '-' '_' (pyReplace prop_name "color-" "")

/-- The colors-branch record built by `_parse_css_tokens` for a match. -/
def colorRecOf (m : String × String) : TokenRecord :=
  let category := replChar '-' '_' (pyReplace m.1 "color-" "")
  { value := .vstr (pyStrip m.2)
    css_var := some ("--vita-color-" ++ pyReplace m.1 "color-" "")
    figma_path := none
    description := .vstr ("ViTA color token for " ++ replChar '_' ' ' category) }

/-- The matches that take the colors branch. -/
def colorMatches (ms : List (String × String)) : List (String × String) :=
  ms.filter fun m => pyStartswith m.1 "color-"

/-- The `(token name, record)` pairs the colors branch produces, in match
order. -/
def colorEntries (ms : List (String × String)) : List (String × TokenRecord) :=
  (colorMatches ms).map fun m => (colorKeyOf m.1, colorRecOf m)

/-- Every record in `ext` has the merger's shape: a `figma_path` field
and no `css_var` field. -/
def MergedRecords (ext : TokenDict) : Prop :=
  ∀ p ∈ ext, p.2.css_var = none ∧ p.2.figma_path.isSome = true

/-- No record reachable by `_get_token_value`'s scan of catalog `c` has
`css_var` equal to `--<token_name>`: the token is not present via the
CSS extractor (it may still be present as a merger-inserted record). -/
def NoCssMatch (c : Catalog) (token_name : String) : Prop :=
  findTok token_name c.colors = none
  ∧ findTok token_name c.typography = none
  ∧ findTok token_name c.spacing = none
  ∧ findPyTok token_name (pyItems c.components) = none
  ∧ findPyTok token_name (pyItems c.themes) = none
  ∧ findPyTok token_name (pyItems c.guidelines) = none
  ∧ findPyTok token_name (pyItems c.examples) = none

instance (c : Catalog) (token_name : String) : Decidable (NoCssMatch c token_name) := by
  unfold NoCssMatch; infer_instance

/-! ## Concrete inputs used by witnesses and counterexamples -/

/-- A match list with one color token and one font token. -/
def msWit : List (String × String) :=
  [("color-brand-primary", " #003965 "), ("font-size-base", "16px")]

/-- A file system with no token-source file and a well-formed (but
empty) secondary-source document. -/
def fsWitA : FS := ⟨none, some (some (.vdict []))⟩

/-- A file system with an empty (readable) token-source file and no
secondary source. -/
def fsWitB : FS := ⟨some "", none⟩

/-- A file system with neither source file present. -/
def fsWitC : FS := ⟨none, none⟩

/-- A record already present in the catalog before a merge. -/
def recWitA : TokenRecord :=
  { value := .vstr "#111111"
    css_var := some "--vita-color-brand-primary-light"
    figma_path := none
    description := .vstr "existing record" }

/-- A catalog whose `colors` category already binds the key that
`figWitA` would synthesize. -/
def catWitA : Catalog :=
  { colors := [("vita_color_brand_primary_light", recWitA)]
    typography := []
    spacing := []
    components := .vdict []
    themes := .vdict []
    guidelines := .vdict []
    examples := .vdict [] }

/-- A Figma document that synthesizes the key
`vita_color_brand_primary_light` (already present in `catWitA`). -/
def figWitA : PyVal :=
  .vdict [("tokens", .vdict [("color", .vdict
    [("brand", .vdict [("primary", .vdict
      [("light", .vdict [("value", .vstr "#000000")])])])])])]

/-- A Figma document that synthesizes the key `vita_color_brand_x_light`. -/
def figWitB : PyVal :=
  .vdict [("tokens", .vdict [("color", .vdict
    [("brand", .vdict [("x", .vdict
      [("light", .vdict [("value", .vstr "#222222")])])])])])]

/-- A malformed Figma document: the category `"a"` is well-formed and
yields one record, after which the non-dict category `"b"` raises
`AttributeError` inside the loop. -/
def cexFigma : PyVal :=
  .vdict [("tokens", .vdict [("color", .vdict
    [("a", .vdict [("n", .vdict [("light", .vdict [("value", .vstr "#ffffff")])])]),
     ("b", .vint 5),
     ("c", .vdict [("n2", .vdict [("dark", .vdict [("value", .vstr "#000000")])])])])])]

/-! # Lemmas and claim theorems -/

/-! ## String and list toolkit -/

theorem sdata_append (s t : String) : (s ++ t).data = s.data ++ t.data := rfl

theorem smk_data (s : String) : String.mk s.data = s := rfl

theorem isPrefixL_self_append : ∀ (p t : List Char), isPrefixL p (p ++ t) = true
  | [], _ => rfl
  | a :: as, t => by
    simp [List.cons_append, isPrefixL, isPrefixL_self_append as t]

theorem replF_no_occur : ∀ (fuel : Nat) (pat rep s : List Char),
    containsL pat s = false → replF fuel pat rep s = s
  | 0, _, _, s, _ => rfl
  | _ + 1, _, _, [], _ => rfl
  | fuel + 1, pat, rep, c :: rest, h => by
    have hsplit : isPrefixL pat (c :: rest) = false ∧ containsL pat rest = false := by
      have := h
      simp only [containsL, Bool.or_eq_false_iff] at this
      exact this
    simp only [replF, hsplit.1, Bool.and_false, if_neg]
    rw [replF_no_occur fuel pat rep rest hsplit.2]
    simp

theorem replaceList_prefix (pat rep x : List Char) (hp : pat ≠ [])
    (h : containsL pat x = false) :
    replaceList pat rep (pat ++ x) = rep ++ x := by
  obtain ⟨p, ps, rfl⟩ : ∃ p ps, pat = p :: ps := by
    cases pat with
    | nil => exact absurd rfl hp
    | cons p ps => exact ⟨p, ps, rfl⟩
  show replF ((p :: ps ++ x).length) (p :: ps) rep (p :: ps ++ x) = rep ++ x
  simp only [List.cons_append, List.length_cons, replF]
  rw [if_pos]
  · rw [List.drop_succ_cons,
      show List.drop ps.length (ps.append x) = x from List.drop_left ps x,
      replF_no_occur _ _ _ _ h]
  · simp only [List.isEmpty_cons, Bool.not_false, Bool.true_and]
    exact isPrefixL_self_append (p :: ps) x

theorem pyReplace_pre (pre x : String) (hp : pre.data ≠ [])
    (h : pyContainsStr x pre = false) :
    pyReplace (pre ++ x) pre "" = x := by
  unfold pyReplace
  rw [sdata_append]
  unfold pyContainsStr at h
  rw [show ("" : String).data = [] from rfl, replaceList_prefix pre.data [] x.data hp h]
  rw [List.nil_append, smk_data]

theorem dropPrefixStr_pre (pre x : String) : dropPrefixStr pre (pre ++ x) = x := by
  unfold dropPrefixStr
  rw [sdata_append, show List.drop pre.data.length (pre.data ++ x.data) = x.data from
    List.drop_left pre.data x.data, smk_data]

theorem pyStartswith_pre (pre x : String) : pyStartswith (pre ++ x) pre = true := by
  unfold pyStartswith
  rw [sdata_append]
  exact isPrefixL_self_append pre.data x.data

/-! ## Dictionary lemmas -/

theorem dlookup_append_some {k : String} {r : TokenRecord} :
    ∀ {d : TokenDict} (e : TokenDict), dlookup k d = some r → dlookup k (d ++ e) = some r
  | [], _, h => by simp [dlookup] at h
  | (k', v) :: rest, e, h => by
    by_cases hk : k' = k
    · simp_all [dlookup]
    · simp only [dlookup, if_neg hk] at h
      simpa [dlookup, if_neg hk] using dlookup_append_some e h

theorem dlookup_append_none {k : String} :
    ∀ {d : TokenDict} (e : TokenDict), dlookup k d = none → dlookup k (d ++ e) = dlookup k e
  | [], _, _ => rfl
  | (k', v) :: rest, e, h => by
    by_cases hk : k' = k
    · simp_all [dlookup]
    · simp only [dlookup, if_neg hk] at h
      simpa [dlookup, if_neg hk] using dlookup_append_none e h

theorem dlookup_singleton_ne {k k' : String} {v : TokenRecord} (h : k' ≠ k) :
    dlookup k [(k', v)] = none := by
  simp [dlookup, if_neg h]

theorem dlookup_mem_nodup {k : String} {r : TokenRecord} :
    ∀ {ps : TokenDict}, (ps.map Prod.fst).Nodup → (k, r) ∈ ps → dlookup k ps = some r
  | [], _, hm => by simp at hm
  | (k', v) :: rest, hnd, hm => by
    rcases List.mem_cons.1 hm with heq | htail
    · injection heq with h1 h2
      subst h1; subst h2
      simp [dlookup]
    · have hk : k' ≠ k := by
        rintro rfl
        exact (List.nodup_cons.1 hnd).1 (List.mem_map.2 ⟨(k', r), htail, rfl⟩)
      simp only [dlookup, if_neg hk]
      exact dlookup_mem_nodup (List.nodup_cons.1 hnd).2 htail

theorem dictSet_fresh {d : TokenDict} {k : String} {v : TokenRecord}
    (h : dlookup k d = none) : dictSet d k v = d ++ [(k, v)] := by
  simp [dictSet, h]

theorem mem_dictSet {p : String × TokenRecord} {d : TokenDict} {k : String} {v : TokenRecord}
    (h : p ∈ dictSet d k v) : p = (k, v) ∨ p ∈ d := by
  unfold dictSet at h
  split at h
  · rcases List.mem_map.1 h with ⟨q, hq, hfq⟩
    by_cases hk : q.1 = k
    · left; rw [← hfq]; simp [hk]
    · right; rw [← hfq]; simpa [hk] using hq
  · rcases List.mem_append.1 h with hd | hs
    · right; exact hd
    · left; simpa using hs

theorem fold_dictSet_fresh :
    ∀ (ps : List (String × TokenRecord)) (d : TokenDict),
      (ps.map Prod.fst).Nodup → (∀ k, k ∈ ps.map Prod.fst → dlookup k d = none) →
      ps.foldl (fun acc p => dictSet acc p.1 p.2) d = d ++ ps
  | [], d, _, _ => by simp
  | (k, v) :: rest, d, hnd, hfresh => by
    have h1 : dlookup k d = none := hfresh k (by simp)
    have hstep : dictSet d k v = d ++ [(k, v)] := dictSet_fresh h1
    simp only [List.foldl_cons, hstep]
    rw [fold_dictSet_fresh rest (d ++ [(k, v)]) (List.nodup_cons.1 hnd).2]
    · simp
    · intro k' hk'
      have hne : k' ≠ k := by
        rintro rfl
        exact (List.nodup_cons.1 hnd).1 hk'
      rw [dlookup_append_none [(k, v)] (hfresh k' (by simp [hk']))]
      exact dlookup_singleton_ne (Ne.symm hne)

/-! ## The colors projection of the scan loop -/

theorem catStep_colors (td : TokenDicts) (m : String × String) :
    (catStep td m).colors =
      if pyStartswith m.1 "color-" then dictSet td.colors (colorKeyOf m.1) (colorRecOf m)
      else td.colors := by
  by_cases h1 : pyStartswith m.1 "color-" = true
  · simp [catStep, h1, colorKeyOf, colorRecOf]
  · by_cases h2 : pyStartswith m.1 "font-" = true
    · simp [catStep, h1, h2]
    · by_cases h3 : pyStartswith m.1 "spacing-" = true
      · simp [catStep, h1, h2, h3]
      · simp [catStep, h1, h2, h3]

theorem parse_foldl_colors :
    ∀ (ms : List (String × String)) (td0 : TokenDicts),
      (ms.foldl catStep td0).colors
        = (colorEntries ms).foldl (fun acc p => dictSet acc p.1 p.2) td0.colors
  | [], _ => rfl
  | m :: rest, td0 => by
    by_cases hb : pyStartswith m.1 "color-" = true
    · have hent : colorEntries (m :: rest)
          = (colorKeyOf m.1, colorRecOf m) :: colorEntries rest := by
        simp [colorEntries, colorMatches, hb]
      rw [List.foldl_cons, parse_foldl_colors rest (catStep td0 m), hent, List.foldl_cons,
        catStep_colors, if_pos hb]
    · have hent : colorEntries (m :: rest) = colorEntries rest := by
        simp [colorEntries, colorMatches, hb]
      rw [List.foldl_cons, parse_foldl_colors rest (catStep td0 m), hent,
        catStep_colors, if_neg hb]

/-- Claim C1 (amended).  For a token-source match list in which no
matched color key `<x>` contains a further occurrence of `color-` and no
two color matches normalize (dashes to underscores) to the same token
name, the `colors` category is exactly one record per color match, in
match order, and each match `--vita-color-<x>: <v>;` yields the record
with `value = <v>.strip()` and origin key `--vita-color-<x>`.  (The two
hypotheses are forced by `c1_counterexample`: `str.replace('color-','')`
removes *all* occurrences, and a later match whose normalized name
collides silently overwrites an earlier record.) -/
theorem c1_amended (ms : List (String × String))
    (hnc : ∀ m ∈ ms, pyStartswith m.1 "color-" = true →
      pyContainsStr (dropPrefixStr "color-" m.1) "color-" = false)
    (hnd : ((colorEntries ms).map Prod.fst).Nodup) :
    (parseMatches ms).colors = colorEntries ms
    ∧ ∀ x v, ("color-" ++ x, v) ∈ ms →
        dlookup ("vita_color_" ++ replChar '-' '_' x) (parseMatches ms).colors
          = some { value := .vstr (pyStrip v)
                   css_var := some ("--vita-color-" ++ x)
                   figma_path := none
                   description := .vstr ("ViTA color token for "
                     ++ replChar '_' ' ' (replChar '-' '_' x)) } := by
  have hfold : (parseMatches ms).colors = colorEntries ms := by
    unfold parseMatches
    rw [parse_foldl_colors ms ⟨[], [], []⟩]
    rw [show (⟨[], [], []⟩ : TokenDicts).colors = [] from rfl]
    rw [fold_dictSet_fresh (colorEntries ms) [] hnd (fun k _ => rfl)]
    exact List.nil_append _
  refine ⟨hfold, ?_⟩
  intro x v hm
  have hsw : pyStartswith ("color-" ++ x) "color-" = true := pyStartswith_pre _ _
  have hnc' := hnc ("color-" ++ x, v) hm hsw
  rw [dropPrefixStr_pre] at hnc'
  have hrepl : pyReplace ("color-" ++ x) "color-" "" = x :=
    pyReplace_pre _ _ (by decide) hnc'
  have hkey : colorKeyOf ("color-" ++ x) = "vita_color_" ++ replChar '-' '_' x := by
    unfold colorKeyOf; rw [hrepl]
  have hrec : colorRecOf ("color-" ++ x, v)
      = { value := .vstr (pyStrip v)
          css_var := some ("--vita-color-" ++ x)
          figma_path := none
          description := .vstr ("ViTA color token for "
            ++ replChar '_' ' ' (replChar '-' '_' x)) } := by
    unfold colorRecOf; rw [hrepl]
  have hment : (colorKeyOf ("color-" ++ x), colorRecOf ("color-" ++ x, v)) ∈ colorEntries ms := by
    unfold colorEntries colorMatches
    exact List.mem_map.2 ⟨("color-" ++ x, v), List.mem_filter.2 ⟨hm, hsw⟩, rfl⟩
  rw [hfold, ← hkey, ← hrec]
  exact dlookup_mem_nodup hnd hment

/-- Claim C1, counterexample to the claim as stated.  The match
`--vita-color-color-x: red;` (so `<x> = color-x`) produces a record
whose reconstructed origin key is `--vita-color-x`, not the matched
source key `--vita-color-color-x` (`str.replace` removed both
occurrences of `color-`); and the two distinct matches
`--vita-color-a-b` and `--vita-color-a_b` collapse into a single record
(the second overwrites the first). -/
theorem c1_counterexample :
    (parse_css_tokens "--vita-color-color-x: red;").colors
      = [("vita_color_x",
          { value := .vstr "red"
            css_var := some "--vita-color-x"
            figma_path := none
            description := .vstr "ViTA color token for x" })]
    ∧ (some "--vita-color-x" ≠ some ("--vita-color-" ++ "color-x"))
    ∧ (parse_css_tokens "--vita-color-a-b: 1; --vita-color-a_b: 2;").colors
      = [("vita_color_a_b",
          { value := .vstr "2"
            css_var := some "--vita-color-a_b"
            figma_path := none
            description := .vstr "ViTA color token for a b" })] := by
  refine ⟨by decide, by decide, by decide⟩

/-- Witness for `c1_amended` at a concrete two-match list. -/
theorem c1_witness :
    dlookup "vita_color_brand_primary" (parseMatches msWit).colors
      = some { value := .vstr "#003965"
               css_var := some "--vita-color-brand-primary"
               figma_path := none
               description := .vstr "ViTA color token for brand primary" } :=
  (c1_amended msWit (by decide) (by decide)).2 "brand-primary" " #003965 " (by decide)

/-! ## Description shapes (claim C7) -/

theorem catStep_cases (td : TokenDicts) (m : String × String) :
    (∃ cat val cv, catStep td m =
      { td with
          colors := dictSet td.colors ("vita_color_" ++ cat)
            (TokenRecord.mk val cv none (.vstr ("ViTA color token for " ++ replChar '_' ' ' cat))) })
    ∨ (∃ cat val cv, catStep td m =
      { td with
          typography := dictSet td.typography ("vita_font_" ++ cat)
            (TokenRecord.mk val cv none
              (.vstr ("ViTA typography token for " ++ replChar '_' ' ' cat))) })
    ∨ (∃ cat val cv, catStep td m =
      { td with
          spacing := dictSet td.spacing ("vita_spacing_" ++ cat)
            (TokenRecord.mk val cv none (.vstr ("ViTA spacing token " ++ cat))) })
    ∨ catStep td m = td := by
  by_cases h1 : pyStartswith m.1 "color-" = true
  · left
    refine ⟨replChar '-' '_' (pyReplace m.1 "color-" ""), .vstr (pyStrip m.2),
      some ("--vita-color-" ++ pyReplace m.1 "color-" ""), ?_⟩
    simp [catStep, h1]
  · by_cases h2 : pyStartswith m.1 "font-" = true
    · right; left
      refine ⟨replChar '-' '_' (pyReplace m.1 "font-" ""), .vstr (pyStrip m.2),
        some ("--vita-font-" ++ pyReplace m.1 "font-" ""), ?_⟩
      simp [catStep, h1, h2]
    · by_cases h3 : pyStartswith m.1 "spacing-" = true
      · right; right; left
        refine ⟨replChar '-' '_' (pyReplace m.1 "spacing-" ""), .vstr (pyStrip m.2),
          some ("--vita-spacing-" ++ pyReplace m.1 "spacing-" ""), ?_⟩
        simp [catStep, h1, h2, h3]
      · right; right; right
        simp [catStep, h1, h2, h3]

theorem c7_fold_aux :
    ∀ (ms : List (String × String)) (td0 : TokenDicts),
      ((∀ p ∈ td0.colors, ∃ cat, p.1 = "vita_color_" ++ cat
          ∧ p.2.description = PyVal.vstr ("ViTA color token for " ++ replChar '_' ' ' cat))
        ∧ (∀ p ∈ td0.typography, ∃ cat, p.1 = "vita_font_" ++ cat
          ∧ p.2.description = PyVal.vstr ("ViTA typography token for " ++ replChar '_' ' ' cat))
        ∧ (∀ p ∈ td0.spacing, ∃ cat, p.1 = "vita_spacing_" ++ cat
          ∧ p.2.description = PyVal.vstr ("ViTA spacing token " ++ cat))) →
      ((∀ p ∈ (ms.foldl catStep td0).colors, ∃ cat, p.1 = "vita_color_" ++ cat
          ∧ p.2.description = PyVal.vstr ("ViTA color token for " ++ replChar '_' ' ' cat))
        ∧ (∀ p ∈ (ms.foldl catStep td0).typography, ∃ cat, p.1 = "vita_font_" ++ cat
          ∧ p.2.description = PyVal.vstr ("ViTA typography token for " ++ replChar '_' ' ' cat))
        ∧ (∀ p ∈ (ms.foldl catStep td0).spacing, ∃ cat, p.1 = "vita_spacing_" ++ cat
          ∧ p.2.description = PyVal.vstr ("ViTA spacing token " ++ cat)))
  | [], _, h => h
  | m :: rest, td0, h => by
    obtain ⟨hc, ht, hs⟩ := h
    rw [List.foldl_cons]
    apply c7_fold_aux rest (catStep td0 m)
    rcases catStep_cases td0 m with ⟨cat, val, cv, heq⟩ | ⟨cat, val, cv, heq⟩
      | ⟨cat, val, cv, heq⟩ | heq <;> rw [heq]
    · refine ⟨?_, ht, hs⟩
      intro p hp
      rcases mem_dictSet hp with rfl | hmem
      · exact ⟨cat, rfl, rfl⟩
      · exact hc p hmem
    · refine ⟨hc, ?_, hs⟩
      intro p hp
      rcases mem_dictSet hp with rfl | hmem
      · exact ⟨cat, rfl, rfl⟩
      · exact ht p hmem
    · refine ⟨hc, ht, ?_⟩
      intro p hp
      rcases mem_dictSet hp with rfl | hmem
      · exact ⟨cat, rfl, rfl⟩
      · exact hs p hmem
    · exact ⟨hc, ht, hs⟩

/-- Claim C7 (amended).  Every record produced by the scan carries an
auto-generated description, but the three branches are not uniform: the
`colors` branch writes `ViTA color token for <rest space-joined>`, the
`typography` branch writes `ViTA typography token for <rest
space-joined>`, while the `spacing` branch writes `ViTA spacing token
<rest>` — without the word `for` and with underscores kept (forced by
`c7_counterexample`). -/
theorem c7_amended (ms : List (String × String)) :
    (∀ p ∈ (parseMatches ms).colors, ∃ cat, p.1 = "vita_color_" ++ cat
       ∧ p.2.description = PyVal.vstr ("ViTA color token for " ++ replChar '_' ' ' cat))
    ∧ (∀ p ∈ (parseMatches ms).typography, ∃ cat, p.1 = "vita_font_" ++ cat
       ∧ p.2.description = PyVal.vstr ("ViTA typography token for " ++ replChar '_' ' ' cat))
    ∧ (∀ p ∈ (parseMatches ms).spacing, ∃ cat, p.1 = "vita_spacing_" ++ cat
       ∧ p.2.description = PyVal.vstr ("ViTA spacing token " ++ cat)) :=
  c7_fold_aux ms ⟨[], [], []⟩ ⟨by simp, by simp, by simp⟩

/-- Claim C7, counterexample to the claim as stated: the spacing branch
does not produce the uniform `"<namespace> token for <rest words
space-joined>"` description — for `--vita-spacing-size-4: 4px;` it
produces `ViTA spacing token size_4` (no `for`, underscores kept). -/
theorem c7_counterexample :
    (parse_css_tokens "--vita-spacing-size-4: 4px;").spacing
      = [("vita_spacing_size_4",
          { value := .vstr "4px"
            css_var := some "--vita-spacing-size-4"
            figma_path := none
            description := .vstr "ViTA spacing token size_4" })]
    ∧ ("ViTA spacing token size_4" : String) ≠ "ViTA spacing token for size 4" :=
  ⟨by decide, by decide⟩

/-- Witness for `c7_amended`: the spacing conjunct applied to the one
record parsed from a concrete match list. -/
theorem c7_witness :
    ∃ cat, ("vita_spacing_size_4" : String) = "vita_spacing_" ++ cat
      ∧ (PyVal.vstr "ViTA spacing token size_4")
          = PyVal.vstr ("ViTA spacing token " ++ cat) :=
  (c7_amended [("spacing-size-4", "4px")]).2.2
    ("vita_spacing_size_4",
      { value := .vstr "4px"
        css_var := some "--vita-spacing-size-4"
        figma_path := none
        description := .vstr "ViTA spacing token size_4" })
    (by decide)

/-! ## Merge lemmas: the merger only appends fresh, `css_var`-free records -/

theorem mergedRecords_nil : MergedRecords [] := by
  intro p hp; simp at hp

theorem mergedRecords_append {e1 e2 : TokenDict}
    (h1 : MergedRecords e1) (h2 : MergedRecords e2) : MergedRecords (e1 ++ e2) := by
  intro p hp
  rcases List.mem_append.1 hp with h | h
  · exact h1 p h
  · exact h2 p h

theorem extends_trans {a b c : TokenDict}
    (hab : ∃ e, b = a ++ e ∧ MergedRecords e)
    (hbc : ∃ e, c = b ++ e ∧ MergedRecords e) :
    ∃ e, c = a ++ e ∧ MergedRecords e := by
  obtain ⟨e1, rfl, m1⟩ := hab
  obtain ⟨e2, rfl, m2⟩ := hbc
  exact ⟨e1 ++ e2, List.append_assoc a e1 e2, mergedRecords_append m1 m2⟩

theorem mergeThemes_extends (category color_name : String) :
    ∀ (items : List (String × PyVal)) (colors : TokenDict),
      ∃ ext, mergeThemes category color_name items colors = colors ++ ext ∧ MergedRecords ext
  | [], colors => ⟨[], (List.append_nil colors).symm, mergedRecords_nil⟩
  | (theme, theme_data) :: rest, colors => by
    cases theme_data with
    | vdict td =>
      cases hv : plookup "value" td with
      | some v =>
        simp only [mergeThemes, hv]
        apply extends_trans (b :=
          if (dlookup ("vita_color_" ++ category ++ "_" ++ color_name ++ "_" ++ theme)
              colors).isSome then colors
          else colors ++ [("vita_color_" ++ category ++ "_" ++ color_name ++ "_" ++ theme,
            { value := v
              css_var := none
              figma_path := some ("color." ++ category ++ "." ++ color_name ++ "." ++ theme)
              description := (plookup "description" td).getD (.vstr "") })])
        · split
          · exact ⟨[], (List.append_nil colors).symm, mergedRecords_nil⟩
          · refine ⟨_, rfl, ?_⟩
            intro p hp
            rcases List.mem_singleton.1 hp with rfl
            exact ⟨rfl, rfl⟩
        · exact mergeThemes_extends category color_name rest _
      | none =>
        simp only [mergeThemes, hv]
        exact mergeThemes_extends category color_name rest colors
    | vstr s => exact mergeThemes_extends category color_name rest colors
    | vint n => exact mergeThemes_extends category color_name rest colors
    | vlist l => exact mergeThemes_extends category color_name rest colors

theorem mergeNames_extends (category : String) :
    ∀ (items : List (String × PyVal)) (colors : TokenDict),
      ∃ ext, mergeNames category items colors = colors ++ ext ∧ MergedRecords ext
  | [], colors => ⟨[], (List.append_nil colors).symm, mergedRecords_nil⟩
  | (color_name, color_data) :: rest, colors => by
    cases color_data with
    | vdict themeItems =>
      exact extends_trans (mergeThemes_extends category color_name themeItems colors)
        (mergeNames_extends category rest _)
    | vstr s => exact mergeNames_extends category rest colors
    | vint n => exact mergeNames_extends category rest colors
    | vlist l => exact mergeNames_extends category rest colors

theorem mergeCategories_extends :
    ∀ (items : List (String × PyVal)) (colors : TokenDict),
      ∃ ext, mergeCategories items colors = colors ++ ext ∧ MergedRecords ext
  | [], colors => ⟨[], (List.append_nil colors).symm, mergedRecords_nil⟩
  | (category, colorsVal) :: rest, colors => by
    cases colorsVal with
    | vdict nameItems =>
      exact extends_trans (mergeNames_extends category nameItems colors)
        (mergeCategories_extends rest _)
    | vstr s => exact ⟨[], (List.append_nil colors).symm, mergedRecords_nil⟩
    | vint n => exact ⟨[], (List.append_nil colors).symm, mergedRecords_nil⟩
    | vlist l => exact ⟨[], (List.append_nil colors).symm, mergedRecords_nil⟩

theorem merge_extends (figma_data : PyVal) (colors : TokenDict) :
    ∃ ext, merge_figma_data figma_data colors = colors ++ ext ∧ MergedRecords ext := by
  unfold merge_figma_data
  repeat' first
    | exact ⟨[], (List.append_nil colors).symm, mergedRecords_nil⟩
    | exact mergeCategories_extends _ colors
    | split
    | dsimp only

/-- Claim C3.  The merger never overwrites: if the `colors` category
already binds key `K` to record `r`, then after merging any secondary
(Figma) document — in particular one that synthesizes the same key `K` —
the binding of `K` is still exactly `r` (same value, origin key and
description). -/
theorem c3_merge_no_overwrite (figma_data : PyVal) (c : Catalog) (K : String)
    (r : TokenRecord) (h : dlookup K c.colors = some r) :
    dlookup K (mergeCatalog figma_data c).colors = some r := by
  obtain ⟨ext, heq, -⟩ := merge_extends figma_data c.colors
  show dlookup K (merge_figma_data figma_data c.colors) = some r
  rw [heq]
  exact dlookup_append_some ext h

/-- Witness for `c3_merge_no_overwrite`: `catWitA` already binds the key
`vita_color_brand_primary_light` that `figWitA` synthesizes; the merge
leaves the original record in place. -/
theorem c3_witness :
    dlookup "vita_color_brand_primary_light" (mergeCatalog figWitA catWitA).colors
      = some recWitA :=
  c3_merge_no_overwrite figWitA catWitA "vita_color_brand_primary_light" recWitA (by decide)

/-- Claim C8 (amended).  `_merge_figma_data` raises nothing to its
caller (every failure is caught internally) and never removes or
modifies existing records: the catalog after the merge is the old
catalog with some (possibly empty, possibly partial) list of fresh
merger-shaped records appended.  The claim's stronger assertion — that a
failed merge leaves the catalog exactly as it was — is false: records
inserted before the failure point remain (see `c8_counterexample`). -/
theorem c8_amended (figma_data : PyVal) (colors : TokenDict) :
    ∃ ext, merge_figma_data figma_data colors = colors ++ ext ∧ MergedRecords ext :=
  merge_extends figma_data colors

/-- Claim C8, counterexample to the claim as stated.  Merging
`cexFigma` into an empty `colors` dictionary fails midway (category
`"b"` is not a mapping, so `.items()` raises `AttributeError`), yet the
record inserted from category `"a"` remains — the catalog after the
failed merge is not the catalog from before the merge, and the
well-formed category `"c"` after the failure point was never merged. -/
theorem c8_counterexample :
    merge_figma_data cexFigma []
      = [("vita_color_a_n_light",
          { value := .vstr "#ffffff"
            css_var := none
            figma_path := some "color.a.n.light"
            description := .vstr "" })]
    ∧ merge_figma_data cexFigma [] ≠ [] :=
  ⟨by decide, by decide⟩

/-! ## Token lookup never sees merger-inserted records (claim C10) -/

theorem findTok_none_append {k : String} :
    ∀ {d : TokenDict} {e : TokenDict},
      findTok k d = none → findTok k e = none → findTok k (d ++ e) = none
  | [], _, _, he => he
  | (k', r) :: rest, e, hd, he => by
    by_cases hc : r.css_var = some ("--" ++ k)
    · simp [findTok, hc] at hd
    · simp only [findTok, if_neg hc] at hd ⊢
      exact findTok_none_append hd he

theorem findTok_merged {k : String} :
    ∀ {ext : TokenDict}, MergedRecords ext → findTok k ext = none
  | [], _ => rfl
  | (k', r) :: rest, hm => by
    have hr : r.css_var = none := (hm (k', r) (by simp)).1
    have : ¬ r.css_var = some ("--" ++ k) := by rw [hr]; simp
    simp only [findTok, if_neg this]
    exact findTok_merged fun p hp => hm p (List.mem_cons_of_mem _ hp)

/-- Claim C10.  A token reachable only through the secondary-source
merger is invisible to `get_token_value`: merger-inserted records carry
`figma_path` and no `css_var`, while the lookup matches only on
`css_var == "--<token_name>"`.  So if no record of catalog `c` matches
`--<token_name>`, then both before and after merging any Figma document
the lookup returns the not-found message. -/
theorem c10_merge_invisible (figma_data : PyVal) (c : Catalog) (token_name : String)
    (h : NoCssMatch c token_name) :
    get_token_value c token_name = notFoundMsg token_name
    ∧ get_token_value (mergeCatalog figma_data c) token_name = notFoundMsg token_name := by
  obtain ⟨h1, h2, h3, h4, h5, h6, h7⟩ := h
  constructor
  · simp only [get_token_value, h1, h2, h3, h4, h5, h6, h7]
  · obtain ⟨ext, heq, hm⟩ := merge_extends figma_data c.colors
    have hcol : findTok token_name (mergeCatalog figma_data c).colors = none := by
      show findTok token_name (merge_figma_data figma_data c.colors) = none
      rw [heq]
      exact findTok_none_append h1 (findTok_merged hm)
    have ht : (mergeCatalog figma_data c).typography = c.typography := rfl
    have hsp : (mergeCatalog figma_data c).spacing = c.spacing := rfl
    have hco : (mergeCatalog figma_data c).components = c.components := rfl
    have hth : (mergeCatalog figma_data c).themes = c.themes := rfl
    have hgu : (mergeCatalog figma_data c).guidelines = c.guidelines := rfl
    have hex : (mergeCatalog figma_data c).examples = c.examples := rfl
    simp only [get_token_value, hcol, ht, hsp, hco, hth, hgu, hex, h2, h3, h4, h5, h6, h7]

/-- Witness for `c10_merge_invisible`: merging `figWitB` into the
fallback catalog inserts `vita_color_brand_x_light`, yet looking the
token up still answers not-found. -/
theorem c10_witness :
    get_token_value (mergeCatalog figWitB get_fallback_data) "vita_color_brand_x_light"
      = notFoundMsg "vita_color_brand_x_light" :=
  (c10_merge_invisible figWitB get_fallback_data "vita_color_brand_x_light" (by decide)).2

/-- Claim C2 (amended).  Two consecutive `_load_design_data` calls yield
identical catalog content, and a single call reads each source file at
most once; moreover, whenever the first call leaves a non-empty store
(`design_data` truthy), the second call performs no file access at all.
The claim's stronger assertion — at most one read across the two calls
for *every* file-system state — is false: when the token-source file is
absent the store stays `{}` (falsy), so the guard `if self.design_data:`
does not fire and the second call probes the sources again (see
`c2_counterexample`). -/
theorem c2_amended (fs : FS) :
    (load_design_data fs (load_design_data fs none).state).state
      = (load_design_data fs none).state
    ∧ (load_design_data fs none).cssReads ≤ 1
    ∧ (load_design_data fs none).figmaReads ≤ 1
    ∧ ((load_design_data fs none).state.isSome = true →
        (load_design_data fs (load_design_data fs none).state).cssReads = 0
        ∧ (load_design_data fs (load_design_data fs none).state).figmaReads = 0) := by
  obtain ⟨css, figma⟩ := fs
  cases css <;> rcases figma with _ | (_ | d) <;> simp [load_design_data]

/-- Claim C2, counterexample to the claim as stated.  With the
token-source file absent and a valid (empty-object) secondary source
present, the first load leaves the store `{}`, so the second load reads
the secondary source again: two reads, not at most one. -/
theorem c2_counterexample :
    (load_design_data fsWitA none).figmaReads
        + (load_design_data fsWitA (load_design_data fsWitA none).state).figmaReads = 2
    ∧ ¬ ((load_design_data fsWitA none).figmaReads
        + (load_design_data fsWitA (load_design_data fsWitA none).state).figmaReads ≤ 1) :=
  ⟨by decide, by decide⟩

/-- Witness for `c2_amended`: with an existing (empty) token-source
file, the second call touches no file. -/
theorem c2_witness :
    (load_design_data fsWitB (load_design_data fsWitB none).state).state
      = (load_design_data fsWitB none).state
    ∧ (load_design_data fsWitB (load_design_data fsWitB none).state).cssReads = 0
    ∧ (load_design_data fsWitB (load_design_data fsWitB none).state).figmaReads = 0 := by
  obtain ⟨h1, -, -, h4⟩ := c2_amended fsWitB
  exact ⟨h1, (h4 (by decide)).1, (h4 (by decide)).2⟩

/-- Claim C4 (amended).  The hardcoded fallback catalog is substituted
exactly when an exception escapes the load — in this model, exactly when
the secondary-source file exists but `json.load` fails on it.  When both
source files are simply absent, no exception is raised, nothing is
substituted, and the store remains the completely empty `{}` (see
`c4_counterexample`), contradicting the claim that the store observed by
resolver and dispatcher is never completely empty. -/
theorem c4_amended (fs : FS) :
    (load_design_data fs none).state = some get_fallback_data ↔ fs.figma = some none := by
  obtain ⟨css, figma⟩ := fs
  cases css <;> rcases figma with _ | (_ | d) <;> simp [load_design_data]
  all_goals
    intro h
    have hc : seedComponents = get_fallback_data.components :=
      congrArg Catalog.components h
    exact absurd hc (by decide)

/-- Claim C4, counterexample to the claim as stated: with neither source
file present, the parse and the merge produce no data, yet the store is
left as the empty `{}` — the fallback catalog is not substituted. -/
theorem c4_counterexample :
    (load_design_data fsWitC none).state = none
    ∧ (load_design_data fsWitC none).state ≠ some get_fallback_data :=
  ⟨rfl, by decide⟩

/-- Claim C5 (amended).  The resource handler returns a serialized
payload exactly for the 10 fixed identifiers — which use the `vita://`
scheme (`vita://tokens/colors` … `vita://examples/layouts`), not the
spec's `design://` names (see `c5_counterexample`) — and raises
`ValueError` (an error result) for every other identifier. -/
theorem c5_amended (st : Option Catalog) (uri : String) :
    isOkE (handle_read_resource st uri) = true ↔ uri ∈ resourceUris := by
  unfold handle_read_resource resourceUris
  split_ifs with h1 h2 h3 h4 h5 h6 h7 h8 h9 h10 <;> simp_all [isOkE]

/-- Claim C5, counterexample to the claim as stated: the identifier
`design://tokens/colors` named by the spec is outside the accepted set,
so the handler raises instead of returning a value. -/
theorem c5_counterexample :
    isOkE (handle_read_resource none "design://tokens/colors") = false
    ∧ handle_read_resource none "design://tokens/colors"
        = Except.error "Unknown resource URI: design://tokens/colors" :=
  ⟨rfl, rfl⟩

/-- Claim C6 (amended).  The two unknown-name cases are handled
asymmetrically and neither propagates an exception: for a
`component_type` outside the five known kinds, `_generate_component`
returns the text payload `Error: Unknown component type '<x>'` (the
payload carries an `Error: ` prefix absent from the claim's quoted text,
see `c6_counterexample`); for a `layout_type` outside the five known
layouts, `_create_layout` returns, without error, the minimal
`Unknown layout type` placeholder fragment wrapped in the standard page
shell. -/
theorem c6_amended (component_type variant theme content : String)
    (attributes : List (String × String)) (layout_type : String)
    (components : List String) (ltheme : String) (responsive : Bool)
    (hc : component_type ∉ (["button", "input", "card", "badge", "layout"] : List String))
    (hl : layout_type ∉ (["dashboard", "form", "landing", "profile", "settings"] : List String)) :
    generate_component component_type variant theme content attributes
      = "Error: Unknown component type '" ++ component_type ++ "'"
    ∧ create_layout layout_type components ltheme responsive
      = "Generated " ++ layout_type ++ " layout:\n\n```html\n"
        ++ ((headPart1
            ++ (if ltheme ≠ "auto" then "data-theme=\"" ++ ltheme ++ "\""
                else "data-theme=\"light\"")
            ++ headPart2 ++ pyTitle layout_type ++ headPart3)
          ++ "\n" ++ "<div class=\"vita-container\"><h1>Unknown layout type</h1></div>"
          ++ "\n" ++ "</body>\n</html>")
        ++ "\n```" := by
  simp only [List.mem_cons, List.mem_singleton, not_or] at hc hl
  obtain ⟨hc1, hc2, hc3, hc4, hc5, -⟩ := hc
  obtain ⟨hl1, hl2, hl3, hl4, hl5, -⟩ := hl
  constructor
  · simp [generate_component, hc1, hc2, hc3, hc4, hc5]
  · simp [create_layout, generate_complete_layout, hl1, hl2, hl3, hl4, hl5]

/-- Claim C6, counterexample to the claim as stated: the error payload
for an unknown component type is `Error: Unknown component type 'foo'`,
not the quoted `Unknown component type 'foo'`. -/
theorem c6_counterexample :
    generate_component "foo" "default" "auto" "" []
      = "Error: Unknown component type 'foo'"
    ∧ generate_component "foo" "default" "auto" "" []
      ≠ "Unknown component type 'foo'" :=
  ⟨by decide, by decide⟩

set_option maxRecDepth 100000 in
/-- Witness for `c6_amended` at `component_type = "foo"`,
`layout_type = "bar"`. -/
theorem c6_witness :
    generate_component "foo" "default" "auto" "" []
      = "Error: Unknown component type 'foo'"
    ∧ create_layout "bar" [] "auto" true
      = "Generated bar layout:\n\n```html\n"
        ++ (headPart1 ++ "data-theme=\"light\"" ++ headPart2 ++ pyTitle "bar" ++ headPart3)
        ++ "\n" ++ "<div class=\"vita-container\"><h1>Unknown layout type</h1></div>"
        ++ "\n" ++ "</body>\n</html>" ++ "\n```" := by
  have h := c6_amended "foo" "default" "auto" "" [] "bar" [] "auto" true (by decide) (by decide)
  refine ⟨by rw [h.1]; decide, by rw [h.2]; decide⟩

/-- Claim C9.  The generated layout text is byte-identical across any
two calls that differ only in the `components` sequence and/or the
`responsive` flag: both arguments are accepted but never consulted by
the shell or any of the five bodies. -/
theorem c9_layout_args_inert (layout_type theme : String) (c1 c2 : List String)
    (r1 r2 : Bool) :
    create_layout layout_type c1 theme r1 = create_layout layout_type c2 theme r2 := rfl
